import Mathlib

/-!
Shallow embedding of the resource-composition core of the
`cdk-serverless-template` repository (TypeScript / AWS CDK):

* `database-construct.ts` — the data tier selector (DynamoDB vs Aurora
  Serverless), embedded as `databaseConstruct`;
* `api-construct.ts` — the route/compute binder (`createLambdaExecutionRole`,
  `createLambdaFunctions`), embedded with an explicit allocation counter so
  that reference sharing of the role and the environment object is visible;
* `s3-construct.ts` — the asset distribution selector, embedded as
  `s3Construct` with the `Math.random()` bucket-name suffix made an explicit
  input `randomSuffix`;
* `serverless-webapp-stack.ts` — the composition root and its `CfnOutput`
  list, embedded as `serverlessWebAppStack` / `stackOutputs`.

JavaScript string-keyed object assignment (`obj[k] = v`) is modelled by
`objInsert` on association lists: overwrite in place if the key exists,
append otherwise.
-/

namespace CdkApp

/-- JS object assignment `obj[k] = v` on an association list: replace the
value at `k` if present, otherwise append a new entry. -/
def objInsert {α : Type} (xs : List (String × α)) (k : String) (v : α) :
    List (String × α) :=
  if xs.any (fun p => p.1 = k) then
    xs.map (fun p => if p.1 = k then (k, v) else p)
  else
    xs ++ [(k, v)]

/-- CDK `RemovalPolicy`. -/
inductive RemovalPolicy where
  | retain
  | destroy
deriving Repr, DecidableEq

/-! ## Configuration model (`config/app-config.ts`) -/

/-- One GSI entry of a DynamoDB table config. -/
structure GsiConfig where
  indexName : String
  partitionKey : String
  sortKey : Option String
deriving Repr, DecidableEq

/-- One entry of `DatabaseConfig.dynamoTables`. -/
structure DynamoTableConfig where
  name : String
  partitionKey : String
  sortKey : Option String
  gsi : Option (List GsiConfig)
deriving Repr, DecidableEq

/-- `DatabaseConfig.type : 'dynamodb' | 'aurora-serverless'`. -/
inductive DbType where
  | dynamodb
  | auroraServerless
deriving Repr, DecidableEq

/-- `auroraConfig.engine : 'mysql' | 'postgres'`. -/
inductive DbEngine where
  | mysql
  | postgres
deriving Repr, DecidableEq

/-- `DatabaseConfig.auroraConfig`. -/
structure AuroraConfig where
  databaseName : String
  masterUsername : String
  engine : DbEngine
  enableHttpEndpoint : Option Bool
deriving Repr, DecidableEq

/-- `DatabaseConfig`. -/
structure DatabaseConfig where
  type : DbType
  dynamoTables : Option (List DynamoTableConfig)
  auroraConfig : Option AuroraConfig
deriving Repr, DecidableEq

/-- `AppConfig.lambda`. -/
structure LambdaConfig where
  runtime : String
  timeout : Nat
  memorySize : Nat
deriving Repr, DecidableEq

/-- `AppConfig.s3.customDomain`. -/
structure CustomDomainConfig where
  domainName : String
  certificateArn : Option String
deriving Repr, DecidableEq

/-- `AppConfig.s3`. The optional `enableCloudFront?` flag is a `Bool`
(absence behaves as `false` at every use site). -/
structure S3Config where
  enableWebsiteHosting : Bool
  enableCloudFront : Bool
  customDomain : Option CustomDomainConfig
deriving Repr, DecidableEq

/-- The slice of `AppConfig` the composition root reads. -/
structure AppConfig where
  projectName : String
  environment : String
  database : DatabaseConfig
  lambdaCfg : LambdaConfig
  s3 : S3Config
deriving Repr, DecidableEq

/-! ## Data tier selector (`database-construct.ts`) -/

/-- A provisioned DynamoDB GSI. -/
structure DynamoGsi where
  indexName : String
  partitionKey : String
  sortKey : Option String
deriving Repr, DecidableEq

/-- A provisioned DynamoDB table resource. -/
structure DynamoTable where
  tableName : String
  partitionKey : String
  sortKey : Option String
  removalPolicy : RemovalPolicy
  pointInTimeRecovery : Bool
  gsis : List DynamoGsi
deriving Repr, DecidableEq

/-- A provisioned Secrets Manager secret. -/
structure SecretRes where
  secretName : String
  secretArn : String
deriving Repr, DecidableEq

/-- A provisioned Aurora Serverless cluster. -/
structure ServerlessCluster where
  clusterIdentifier : String
  engine : String
  defaultDatabaseName : String
  clusterArn : String
  endpointAddress : String
  autoPauseMinutes : Nat
  minCapacity : Nat
  maxCapacity : Nat
  removalPolicy : RemovalPolicy
  deletionProtection : Bool
deriving Repr, DecidableEq

/-- A provisioned VPC. -/
structure VpcRes where
  vpcName : String
  maxAzs : Nat
  natGateways : Nat
deriving Repr, DecidableEq

/-- The `DatabaseConstruct` public surface: the derived capability handle. -/
structure DatabaseConstruct where
  dynamoTables : Option (List (String × DynamoTable))
  auroraCluster : Option ServerlessCluster
  auroraSecret : Option SecretRes
  vpc : Option VpcRes
deriving Repr, DecidableEq

/-- Body of the `forEach` in `setupDynamoDB`: build one table resource from
its config entry. -/
def mkDynamoTable (projectName environment : String)
    (tableConfig : DynamoTableConfig) : DynamoTable :=
  { tableName := projectName ++ "-" ++ environment ++ "-" ++ tableConfig.name
    partitionKey := tableConfig.partitionKey
    sortKey := tableConfig.sortKey
    removalPolicy :=
      if environment = "prod" then RemovalPolicy.retain else RemovalPolicy.destroy
    pointInTimeRecovery := environment = "prod"
    gsis :=
      (tableConfig.gsi.getD []).map fun g =>
        { indexName := g.indexName
          partitionKey := g.partitionKey
          sortKey := g.sortKey } }

/-- `DatabaseConstruct.setupDynamoDB`: guard-return when the table list is
absent, otherwise populate `this.dynamoTables` by keyed assignment. -/
def setupDynamoDB (config : DatabaseConfig) (projectName environment : String) :
    DatabaseConstruct :=
  match config.dynamoTables with
  | none => { dynamoTables := none, auroraCluster := none
              auroraSecret := none, vpc := none }
  | some tableConfigs =>
      { dynamoTables :=
          some (tableConfigs.foldl
            (fun acc tc => objInsert acc tc.name (mkDynamoTable projectName environment tc))
            [])
        auroraCluster := none, auroraSecret := none, vpc := none }

/-- `DatabaseConstruct.setupAuroraServerless`: guard-return when the cluster
config is absent, otherwise create the VPC, secret and cluster. -/
def setupAuroraServerless (config : DatabaseConfig)
    (projectName environment : String) : DatabaseConstruct :=
  match config.auroraConfig with
  | none => { dynamoTables := none, auroraCluster := none
              auroraSecret := none, vpc := none }
  | some ac =>
      let vpc : VpcRes :=
        { vpcName := projectName ++ "-" ++ environment ++ "-vpc"
          maxAzs := 2
          natGateways := if environment = "prod" then 2 else 1 }
      let secret : SecretRes :=
        { secretName := projectName ++ "-" ++ environment ++ "-aurora-credentials"
          secretArn :=
            "arn:aws:secretsmanager:" ++ projectName ++ "-" ++ environment
              ++ "-aurora-credentials" }
      let cluster : ServerlessCluster :=
        { clusterIdentifier := projectName ++ "-" ++ environment ++ "-aurora"
          engine :=
            if ac.engine = DbEngine.mysql then "aurora-mysql:3.02.0"
            else "aurora-postgres:13.7"
          defaultDatabaseName := ac.databaseName
          clusterArn :=
            "arn:aws:rds:" ++ projectName ++ "-" ++ environment ++ "-aurora"
          endpointAddress :=
            projectName ++ "-" ++ environment ++ "-aurora.cluster.example:5432"
          autoPauseMinutes := if environment = "prod" then 0 else 10
          minCapacity := 2
          maxCapacity := if environment = "prod" then 64 else 16
          removalPolicy :=
            if environment = "prod" then RemovalPolicy.retain else RemovalPolicy.destroy
          deletionProtection := environment = "prod" }
      { dynamoTables := none, auroraCluster := some cluster
        auroraSecret := some secret, vpc := some vpc }

/-- The `DatabaseConstruct` constructor: dispatch on `config.type`. -/
def databaseConstruct (config : DatabaseConfig)
    (projectName environment : String) : DatabaseConstruct :=
  match config.type with
  | DbType.dynamodb => setupDynamoDB config projectName environment
  | DbType.auroraServerless => setupAuroraServerless config projectName environment

/-! ## Route/compute binder (`api-construct.ts`) -/

/-- One IAM policy statement added with `role.addToPolicy`. -/
structure PolicyStatement where
  actions : List String
  resources : List String
deriving Repr, DecidableEq

/-- The Lambda execution role: which tables granted `grantReadWriteData`,
which statements were added, which secrets granted `grantRead`. -/
structure LambdaRole where
  tableGrants : List String
  policyStatements : List PolicyStatement
  secretReadGrants : List String
deriving Repr, DecidableEq

/-- The `rds-data` action list of the Aurora policy statement in
`createLambdaExecutionRole`, verbatim from the source. -/
def rdsDataActions : List String :=
  ["rds-data:ExecuteStatement",
   "rds-data:BatchExecuteStatement",
   "rds-data:BeginTransaction",
   "rds-data:CommitTransaction",
   "rds-data:RollbackTransaction"]

/-- `ApiConstruct.createLambdaExecutionRole`: one role; read-write grant per
DynamoDB table when present; the `rds-data` statement on the cluster plus
secret read when the Aurora handles are present. -/
def createLambdaExecutionRole (database : DatabaseConstruct) : LambdaRole :=
  let base : LambdaRole :=
    { tableGrants := [], policyStatements := [], secretReadGrants := [] }
  let r1 :=
    match database.dynamoTables with
    | some tables =>
        { base with tableGrants := tables.map (fun p => p.2.tableName) }
    | none => base
  match database.auroraCluster with
  | some cluster =>
      let r2 :=
        { r1 with policyStatements :=
            r1.policyStatements ++
              [{ actions := rdsDataActions, resources := [cluster.clusterArn] }] }
      match database.auroraSecret with
      | some s =>
          { r2 with secretReadGrants := r2.secretReadGrants ++ [s.secretArn] }
      | none => r2
  | none => r1

/-- `commonEnvironment` in `createLambdaFunctions`: the shared environment
object, built by JS keyed assignment. -/
def commonEnvironment (database : DatabaseConstruct)
    (projectName environment : String) : List (String × String) :=
  let base : List (String × String) :=
    [("PROJECT_NAME", projectName),
     ("ENVIRONMENT", environment),
     ("DATABASE_TYPE",
       if database.dynamoTables.isSome then "dynamodb" else "aurora-serverless")]
  let withTables :=
    match database.dynamoTables with
    | some tables =>
        tables.foldl
          (fun acc p =>
            objInsert acc ("DYNAMODB_TABLE_" ++ p.1.toUpper) p.2.tableName)
          base
    | none => base
  match database.auroraCluster, database.auroraSecret with
  | some c, some s =>
      objInsert (objInsert withTables "AURORA_CLUSTER_ARN" c.clusterArn)
        "AURORA_SECRET_ARN" s.secretArn
  | _, _ => withTables

/-- One entry of the fixed `functionConfigs` catalog. -/
structure RouteConfig where
  name : String
  method : String
  path : String
deriving Repr, DecidableEq

/-- The fixed route/function catalog of `createLambdaFunctions`. -/
def functionConfigs : List RouteConfig :=
  [⟨"GetItems", "GET", "/items"⟩,
   ⟨"CreateItem", "POST", "/items"⟩,
   ⟨"GetItem", "GET", "/items/{id}"⟩,
   ⟨"UpdateItem", "PUT", "/items/{id}"⟩,
   ⟨"DeleteItem", "DELETE", "/items/{id}"⟩,
   ⟨"GetUsers", "GET", "/users"⟩,
   ⟨"CreateUser", "POST", "/users"⟩,
   ⟨"GetUser", "GET", "/users/{id}"⟩]

/-- One provisioned Lambda function. `envRef` and `roleRef` are allocation
identifiers: the source passes the single `commonEnvironment` object and the
single `role` object by reference to every function. -/
structure LambdaFunction where
  functionName : String
  runtime : String
  handler : String
  timeoutSeconds : Nat
  memorySize : Nat
  envRef : Nat
  roleRef : Nat
deriving Repr, DecidableEq

/-- Body of the `forEach` in `createLambdaFunctions`: one Lambda function per
catalog entry, carrying references to the shared role and environment. -/
def mkLambdaFunction (cfg : RouteConfig) (lambdaConfig : LambdaConfig)
    (projectName environment : String) (roleId envId : Nat) : LambdaFunction :=
  { functionName :=
      projectName ++ "-" ++ environment ++ "-" ++ cfg.name.toLower
    runtime := "nodejs18.x"
    handler := "index.handler"
    timeoutSeconds := lambdaConfig.timeout
    memorySize := lambdaConfig.memorySize
    envRef := envId
    roleRef := roleId }

/-- The `forEach` loop of `createLambdaFunctions` over an arbitrary catalog:
populate `this.lambdaFunctions` by keyed assignment. -/
def buildLambdaFunctions (cfgs : List RouteConfig) (lambdaConfig : LambdaConfig)
    (projectName environment : String) (roleId envId : Nat) :
    List (String × LambdaFunction) :=
  cfgs.foldl
    (fun acc cfg =>
      objInsert acc cfg.name
        (mkLambdaFunction cfg lambdaConfig projectName environment roleId envId))
    []

/-- `ApiConstruct.createLambdaFunctions`, at the source's fixed catalog. -/
def createLambdaFunctions (lambdaConfig : LambdaConfig)
    (projectName environment : String) (roleId envId : Nat) :
    List (String × LambdaFunction) :=
  buildLambdaFunctions functionConfigs lambdaConfig projectName environment roleId envId

/-- The `ApiConstruct` public surface. `roleId` / `envId` are the allocation
identifiers of the single role and the single shared environment object
created in the constructor. -/
structure ApiConstruct where
  restApiName : String
  restApiUrl : String
  roleId : Nat
  role : LambdaRole
  envId : Nat
  commonEnv : List (String × String)
  lambdaFunctions : List (String × LambdaFunction)
deriving Repr, DecidableEq

/-- The `ApiConstruct` constructor: create the REST API, one execution role,
one shared environment object, then the Lambda functions. `firstId` seeds
the allocation counter for the two shared objects. -/
def apiConstruct (lambdaConfig : LambdaConfig)
    (projectName environment : String) (database : DatabaseConstruct)
    (firstId : Nat) : ApiConstruct :=
  let roleId := firstId
  let role := createLambdaExecutionRole database
  let envId := firstId + 1
  let env := commonEnvironment database projectName environment
  { restApiName := projectName ++ "-" ++ environment ++ "-api"
    restApiUrl :=
      "https://" ++ projectName ++ "-" ++ environment ++ "-api.example/"
    roleId := roleId
    role := role
    envId := envId
    commonEnv := env
    lambdaFunctions :=
      createLambdaFunctions lambdaConfig projectName environment roleId envId }

/-! ## Asset distribution selector (`s3-construct.ts`) -/

/-- CDK `BlockPublicAccess` as used by the source. -/
inductive BlockPublicAccess where
  | blockAll
  | blockAcls
deriving Repr, DecidableEq

/-- The provisioned S3 bucket. -/
structure Bucket where
  bucketName : String
  versioned : Bool
  removalPolicy : RemovalPolicy
  autoDeleteObjects : Bool
  publicReadAccess : Bool
  blockPublicAccess : BlockPublicAccess
  websiteIndexDocument : Option String
  websiteErrorDocument : Option String
deriving Repr, DecidableEq

/-- The `bucketWebsiteUrl` CDK attribute as a function of the bucket name. -/
def bucketWebsiteUrl (bucketName : String) : String :=
  "http://" ++ bucketName ++ ".s3-website.example"

/-- The `distributionDomainName` CDK attribute of the distribution created
for this project/environment. -/
def distDomainName (projectName environment : String) : String :=
  projectName ++ "-" ++ environment ++ ".cloudfront.example"

/-- The provisioned CloudFront distribution. -/
structure Distribution where
  comment : String
  domainNames : Option (List String)
  certificate : Option String
  defaultRootObject : String
  priceClass : String
  distributionDomainName : String
deriving Repr, DecidableEq

/-- The `S3Construct` public surface. -/
structure S3Construct where
  bucket : Bucket
  distribution : Option Distribution
  websiteUrl : Option String
  distributionDomainName : Option String
deriving Repr, DecidableEq

/-- `S3Construct.createCloudFrontDistribution`: the distribution resource. -/
def createCloudFrontDistribution (config : S3Config)
    (projectName environment : String) : Distribution :=
  { comment := projectName ++ "-" ++ environment ++ " static assets distribution"
    domainNames :=
      match config.customDomain with
      | some cd => some [cd.domainName]
      | none => none
    certificate :=
      match config.customDomain with
      | some cd => cd.certificateArn
      | none => none
    defaultRootObject := "index.html"
    priceClass :=
      if environment = "prod" then "PRICE_CLASS_ALL" else "PRICE_CLASS_100"
    distributionDomainName := distDomainName projectName environment }

/-- The `new s3.Bucket('StaticAssetsBucket', ...)` call in the `S3Construct`
constructor. The `Math.random().toString(36).substring(7)` suffix of the
bucket name is the explicit input `randomSuffix`. -/
def mkStaticAssetsBucket (config : S3Config) (projectName environment : String)
    (randomSuffix : String) : Bucket :=
  { bucketName :=
      projectName ++ "-" ++ environment ++ "-static-assets-" ++ randomSuffix
    versioned := environment = "prod"
    removalPolicy :=
      if environment = "prod" then RemovalPolicy.retain else RemovalPolicy.destroy
    autoDeleteObjects := environment ≠ "prod"
    publicReadAccess := config.enableWebsiteHosting && !config.enableCloudFront
    blockPublicAccess :=
      if config.enableCloudFront then BlockPublicAccess.blockAll
      else BlockPublicAccess.blockAcls
    websiteIndexDocument :=
      if config.enableWebsiteHosting then some "index.html" else none
    websiteErrorDocument :=
      if config.enableWebsiteHosting then some "error.html" else none }

/-- The `S3Construct` constructor, as in the source: `websiteUrl` is first
set only when hosting is enabled without CloudFront, then overwritten by
`createCloudFrontDistribution` when CloudFront is enabled. -/
def s3Construct (config : S3Config) (projectName environment : String)
    (randomSuffix : String) : S3Construct :=
  let bucket := mkStaticAssetsBucket config projectName environment randomSuffix
  let websiteUrl0 : Option String :=
    if config.enableWebsiteHosting && !config.enableCloudFront then
      some (bucketWebsiteUrl bucket.bucketName)
    else none
  if config.enableCloudFront then
    let d := createCloudFrontDistribution config projectName environment
    { bucket := bucket
      distribution := some d
      distributionDomainName := some d.distributionDomainName
      websiteUrl := some ("https://" ++ d.distributionDomainName) }
  else
    { bucket := bucket
      distribution := none
      distributionDomainName := none
      websiteUrl := websiteUrl0 }

/-! ## Composition root (`serverless-webapp-stack.ts`) -/

/-- The `CfnOutput` list of `ServerlessWebAppStack`, in source order:
`ApiUrl`; `WebsiteUrl` when website hosting is enabled; `CloudFrontUrl` when
the distribution domain name is set; `S3BucketName`; one `DynamoTable<name>`
output per table for the DynamoDB tier; `AuroraClusterEndpoint` for the
Aurora tier. -/
def stackOutputs (config : AppConfig) (api : ApiConstruct) (s3c : S3Construct)
    (database : DatabaseConstruct) : List (String × String) :=
  [("ApiUrl", api.restApiUrl)]
  ++ (if config.s3.enableWebsiteHosting then
        [("WebsiteUrl", s3c.websiteUrl.getD "Not configured")]
      else [])
  ++ (match s3c.distributionDomainName with
      | some d => [("CloudFrontUrl", "https://" ++ d)]
      | none => [])
  ++ [("S3BucketName", s3c.bucket.bucketName)]
  ++ (match config.database.type, database.dynamoTables with
      | DbType.dynamodb, some tables =>
          tables.map (fun p => ("DynamoTable" ++ p.1, p.2.tableName))
      | _, _ => [])
  ++ (match config.database.type, database.auroraCluster with
      | DbType.auroraServerless, some c =>
          [("AuroraClusterEndpoint", c.endpointAddress)]
      | _, _ => [])

/-- The full object graph one composition run produces. -/
structure Stack where
  database : DatabaseConstruct
  api : ApiConstruct
  s3 : S3Construct
  outputs : List (String × String)
deriving Repr, DecidableEq

/-- The `ServerlessWebAppStack` constructor: database → api → s3 → outputs.
`randomSuffix` is the value `Math.random().toString(36).substring(7)` took
in this run. -/
def serverlessWebAppStack (config : AppConfig) (randomSuffix : String) : Stack :=
  let database := databaseConstruct config.database config.projectName config.environment
  let api := apiConstruct config.lambdaCfg config.projectName config.environment database 0
  let s3c := s3Construct config.s3 config.projectName config.environment randomSuffix
  { database := database
    api := api
    s3 := s3c
    outputs := stackOutputs config api s3c database }

/-- The keys of an output list. -/
def outputKeys (outs : List (String × String)) : List String :=
  outs.map Prod.fst

/-! ## Validity of a configuration, and concrete fixtures -/

/-- A database configuration is valid when the sub-spec required by its
declared tier type is present (the spec's precondition for composition). -/
def validDatabaseConfig (c : DatabaseConfig) : Prop :=
  (c.type = DbType.dynamodb → c.dynamoTables.isSome = true) ∧
  (c.type = DbType.auroraServerless → c.auroraConfig.isSome = true)

instance (c : DatabaseConfig) : Decidable (validDatabaseConfig c) := by
  unfold validDatabaseConfig
  infer_instance

/-- The `Users` table of the repository's default configuration. -/
def usersTableConfig : DynamoTableConfig :=
  ⟨"Users", "userId", none, some [⟨"EmailIndex", "email", none⟩]⟩

/-- The `Items` table of the repository's default configuration. -/
def itemsTableConfig : DynamoTableConfig :=
  ⟨"Items", "id", some "createdAt", none⟩

/-- A DynamoDB-tier database configuration (the repository default). -/
def dynamoDbConfig : DatabaseConfig :=
  ⟨DbType.dynamodb, some [usersTableConfig, itemsTableConfig], none⟩

/-- An Aurora-tier database configuration. -/
def auroraDbConfig : DatabaseConfig :=
  ⟨DbType.auroraServerless, none, some ⟨"appdb", "admin", DbEngine.postgres, none⟩⟩

/-- A configuration declaring the DynamoDB tier but omitting its table
list. -/
def missingTablesConfig : DatabaseConfig :=
  ⟨DbType.dynamodb, none, none⟩

/-- The repository's default Lambda budget. -/
def defaultLambdaConfig : LambdaConfig :=
  ⟨"nodejs18.x", 30, 256⟩

/-- Website hosting enabled, CloudFront disabled. -/
def s3HostingOnly : S3Config := ⟨true, false, none⟩

/-- CloudFront enabled, website hosting disabled. -/
def s3CloudFrontOnly : S3Config := ⟨false, true, none⟩

/-- Both website hosting and CloudFront enabled. -/
def s3HostingAndCloudFront : S3Config := ⟨true, true, none⟩

/-- Neither website hosting nor CloudFront enabled. -/
def s3Disabled : S3Config := ⟨false, false, none⟩

/-- An application configuration around the default DynamoDB tier, with a
chosen S3 feature combination. -/
def sampleAppConfig (s : S3Config) : AppConfig :=
  ⟨"demo", "dev", dynamoDbConfig, defaultLambdaConfig, s⟩

/-- A composition run's database handle on the default configuration. -/
def demoDatabase : DatabaseConstruct :=
  databaseConstruct dynamoDbConfig "demo" "dev"

/-- The compute-unit record `createLambdaFunctions` builds for `GetItems`. -/
def demoUnitA : String × LambdaFunction :=
  ("GetItems", mkLambdaFunction ⟨"GetItems", "GET", "/items"⟩
    defaultLambdaConfig "demo" "dev" 0 1)

/-- The compute-unit record `createLambdaFunctions` builds for `GetUser`. -/
def demoUnitB : String × LambdaFunction :=
  ("GetUser", mkLambdaFunction ⟨"GetUser", "GET", "/users/{id}"⟩
    defaultLambdaConfig "demo" "dev" 0 1)

/-! ## Helper lemmas -/

/-- `objInsert` with a fresh key is an append. -/
theorem objInsert_not_mem {α : Type} (xs : List (String × α)) (k : String) (v : α)
    (h : ∀ p ∈ xs, p.1 ≠ k) : objInsert xs k v = xs ++ [(k, v)] := by
  unfold objInsert
  rw [if_neg]
  simp only [List.any_eq_true, not_exists, not_and]
  intro p hp
  exact fun he => (h p hp) (by simpa using he)

/-- Folding `objInsert` over route configs with pairwise distinct names and
an accumulator disjoint from them appends one entry per config, in order. -/
theorem foldl_objInsert {α : Type} (f : RouteConfig → α) :
    ∀ (cfgs : List RouteConfig) (acc : List (String × α)),
      (∀ c ∈ cfgs, ∀ p ∈ acc, p.1 ≠ c.name) →
      (cfgs.map RouteConfig.name).Nodup →
      cfgs.foldl (fun a c => objInsert a c.name (f c)) acc
        = acc ++ cfgs.map (fun c => (c.name, f c))
  | [], acc, _, _ => by simp
  | c :: rest, acc, hd, hn => by
      have hstep : objInsert acc c.name (f c) = acc ++ [(c.name, f c)] :=
        objInsert_not_mem acc c.name (f c) (fun p hp => hd c (by simp) p hp)
      have hn' : (rest.map RouteConfig.name).Nodup := by
        simpa using hn.of_cons
      have hd' : ∀ c' ∈ rest, ∀ p ∈ acc ++ [(c.name, f c)], p.1 ≠ c'.name := by
        intro c' hc' p hp
        rcases List.mem_append.mp hp with hpa | hpb
        · exact hd c' (by simp [hc']) p hpa
        · have hpe : p = (c.name, f c) := by simpa using hpb
          subst hpe
          have hcons : (∀ x ∈ rest, ¬x.name = c.name) ∧
              (rest.map RouteConfig.name).Nodup := by simpa using hn
          exact fun he => hcons.1 c' hc' he.symm
      calc (c :: rest).foldl (fun a c => objInsert a c.name (f c)) acc
          = rest.foldl (fun a c => objInsert a c.name (f c)) (acc ++ [(c.name, f c)]) := by
            simp [List.foldl_cons, hstep]
        _ = acc ++ [(c.name, f c)] ++ rest.map (fun c => (c.name, f c)) :=
            foldl_objInsert f rest (acc ++ [(c.name, f c)]) hd' hn'
        _ = acc ++ (c :: rest).map (fun c => (c.name, f c)) := by simp

/-- With pairwise distinct route names the function map is one entry per
route config, in catalog order. -/
theorem buildLambdaFunctions_eq (cfgs : List RouteConfig) (lc : LambdaConfig)
    (pn env : String) (roleId envId : Nat)
    (h : (cfgs.map RouteConfig.name).Nodup) :
    buildLambdaFunctions cfgs lc pn env roleId envId
      = cfgs.map (fun c => (c.name, mkLambdaFunction c lc pn env roleId envId)) := by
  unfold buildLambdaFunctions
  simpa using
    foldl_objInsert (fun c => mkLambdaFunction c lc pn env roleId envId) cfgs [] (by simp) h

/-- Every compute unit of one `ApiConstruct` run references the run's single
role allocation and its single environment-object allocation. -/
theorem apiConstruct_fn_refs (lc : LambdaConfig) (pn env : String)
    (db : DatabaseConstruct) (firstId : Nat) :
    ∀ p ∈ (apiConstruct lc pn env db firstId).lambdaFunctions,
      p.2.roleRef = firstId ∧ p.2.envRef = firstId + 1 := by
  intro p hp
  have hfc : (functionConfigs.map RouteConfig.name).Nodup := by decide
  have hmap :
      (apiConstruct lc pn env db firstId).lambdaFunctions
        = functionConfigs.map
            (fun c => (c.name, mkLambdaFunction c lc pn env firstId (firstId + 1))) := by
    show createLambdaFunctions lc pn env firstId (firstId + 1)
        = functionConfigs.map
            (fun c => (c.name, mkLambdaFunction c lc pn env firstId (firstId + 1)))
    exact buildLambdaFunctions_eq functionConfigs lc pn env firstId (firstId + 1) hfc
  rw [hmap] at hp
  obtain ⟨c, _, hc⟩ := List.mem_map.mp hp
  subst hc
  exact ⟨rfl, rfl⟩

/-! ## Claim theorems -/

/-- Claim C1, counterexample: on a configuration declaring the keyed-table
tier with the table list absent, the data tier selector neither fails nor
raises any error — it returns, silently, a capability handle with neither
variant populated. -/
theorem dataTier_missingSubspec_returns_silently :
    databaseConstruct missingTablesConfig "demo" "dev"
      = { dynamoTables := none, auroraCluster := none
          auroraSecret := none, vpc := none } := rfl

/-- Claim C1, amended: whenever the configuration declares a tier type whose
required sub-spec is absent, the selector silently skips all setup and
returns a handle with no table handles, no cluster and no secret, instead of
failing with `ConfigurationError`. -/
theorem dataTier_missingSubspec_silent (config : DatabaseConfig) (pn env : String)
    (h : (config.type = DbType.dynamodb ∧ config.dynamoTables = none)
       ∨ (config.type = DbType.auroraServerless ∧ config.auroraConfig = none)) :
    (databaseConstruct config pn env).dynamoTables = none
  ∧ (databaseConstruct config pn env).auroraCluster = none
  ∧ (databaseConstruct config pn env).auroraSecret = none := by
  rcases h with ⟨ht, hm⟩ | ⟨ht, hm⟩ <;>
    simp [databaseConstruct, setupDynamoDB, setupAuroraServerless, ht, hm]

/-- Witness for the amended C1 at the concrete configuration that declares
the keyed tier but omits its table list. -/
theorem dataTier_missingSubspec_silent_witness :
    (databaseConstruct missingTablesConfig "demo" "dev").dynamoTables = none
  ∧ (databaseConstruct missingTablesConfig "demo" "dev").auroraCluster = none
  ∧ (databaseConstruct missingTablesConfig "demo" "dev").auroraSecret = none :=
  dataTier_missingSubspec_silent missingTablesConfig "demo" "dev"
    (Or.inl ⟨rfl, rfl⟩)

/-- Claim C2: for every valid configuration (the sub-spec required by the
declared tier type is present), the capability handle has exactly one of the
keyed-table handle set and the relational cluster-plus-secret handle set
populated — at least one, and never both. -/
theorem capabilityHandle_exclusive (config : DatabaseConfig) (pn env : String)
    (h : validDatabaseConfig config) :
    ((databaseConstruct config pn env).dynamoTables.isSome = true
      ∨ ((databaseConstruct config pn env).auroraCluster.isSome = true
          ∧ (databaseConstruct config pn env).auroraSecret.isSome = true))
  ∧ ¬((databaseConstruct config pn env).dynamoTables.isSome = true
      ∧ (databaseConstruct config pn env).auroraCluster.isSome = true) := by
  obtain ⟨h1, h2⟩ := h
  cases htype : config.type with
  | dynamodb =>
      obtain ⟨ts, hts⟩ := Option.isSome_iff_exists.mp (h1 htype)
      constructor
      · exact Or.inl (by simp [databaseConstruct, setupDynamoDB, htype, hts])
      · simp [databaseConstruct, setupDynamoDB, htype, hts]
  | auroraServerless =>
      obtain ⟨ac, hac⟩ := Option.isSome_iff_exists.mp (h2 htype)
      constructor
      · exact Or.inr (by simp [databaseConstruct, setupAuroraServerless, htype, hac])
      · simp [databaseConstruct, setupAuroraServerless, htype, hac]

/-- The distribution domain name is set exactly when CloudFront is enabled,
and does not depend on the random bucket-name suffix. -/
theorem s3Construct_ddn (config : S3Config) (pn env r : String) :
    (s3Construct config pn env r).distributionDomainName
      = if config.enableCloudFront then some (distDomainName pn env) else none := by
  cases hc : config.enableCloudFront <;>
    simp [s3Construct, createCloudFrontDistribution, hc]

/-- Claim C3, counterexample: two composition runs on the same unchanged
configuration draw different `Math.random()` bucket-name suffixes, and then
disagree both on the storage resource's name and on the produced output
list. -/
theorem composition_two_runs_differ :
    (serverlessWebAppStack (sampleAppConfig s3HostingOnly) "aaa").s3.bucket.bucketName
      ≠ (serverlessWebAppStack (sampleAppConfig s3HostingOnly) "bbb").s3.bucket.bucketName
  ∧ (serverlessWebAppStack (sampleAppConfig s3HostingOnly) "aaa").outputs
      ≠ (serverlessWebAppStack (sampleAppConfig s3HostingOnly) "bbb").outputs := by
  decide

/-- Claim C3, amended: composition is deterministic in the configuration up
to the random bucket-name suffix — two runs on the same configuration agree
on the whole database graph, the whole API graph, the distribution resource,
the output name list and the output cardinality; only the storage bucket
name and the output values derived from it may differ. -/
theorem composition_deterministic_up_to_suffix (config : AppConfig) (r1 r2 : String) :
    (serverlessWebAppStack config r1).database = (serverlessWebAppStack config r2).database
  ∧ (serverlessWebAppStack config r1).api = (serverlessWebAppStack config r2).api
  ∧ (serverlessWebAppStack config r1).s3.distribution
      = (serverlessWebAppStack config r2).s3.distribution
  ∧ outputKeys (serverlessWebAppStack config r1).outputs
      = outputKeys (serverlessWebAppStack config r2).outputs
  ∧ (serverlessWebAppStack config r1).outputs.length
      = (serverlessWebAppStack config r2).outputs.length := by
  have hdist : (serverlessWebAppStack config r1).s3.distribution
      = (serverlessWebAppStack config r2).s3.distribution := by
    show (s3Construct config.s3 config.projectName config.environment r1).distribution
        = (s3Construct config.s3 config.projectName config.environment r2).distribution
    cases hc : config.s3.enableCloudFront <;> simp [s3Construct, hc]
  have hk : outputKeys (serverlessWebAppStack config r1).outputs
      = outputKeys (serverlessWebAppStack config r2).outputs := by
    show outputKeys (stackOutputs config _
          (s3Construct config.s3 config.projectName config.environment r1) _)
        = outputKeys (stackOutputs config _
          (s3Construct config.s3 config.projectName config.environment r2) _)
    unfold outputKeys stackOutputs
    cases hc : config.s3.enableCloudFront <;>
      cases hh : config.s3.enableWebsiteHosting <;>
        simp [s3Construct, hc, hh]
  refine ⟨rfl, rfl, hdist, hk, ?_⟩
  have l1 : (serverlessWebAppStack config r1).outputs.length
      = (outputKeys (serverlessWebAppStack config r1).outputs).length := by
    simp [outputKeys]
  have l2 : (serverlessWebAppStack config r2).outputs.length
      = (outputKeys (serverlessWebAppStack config r2).outputs).length := by
    simp [outputKeys]
  rw [l1, l2, hk]

/-- Claim C4, counterexample: for the relational variant the single policy
statement added to the execution role grants five `rds-data` actions, not
four as the claim states. -/
theorem auroraGrant_has_five_actions :
    ((createLambdaExecutionRole (databaseConstruct auroraDbConfig "demo" "dev")).policyStatements.map
        (fun s => s.actions.length)) = [5]
  ∧ ((createLambdaExecutionRole (databaseConstruct auroraDbConfig "demo" "dev")).policyStatements.map
        (fun s => s.actions.length)) ≠ [4] := by decide

/-- Claim C4, amended: exactly one identity grant is derived regardless of
the number of compute units (every unit references the run's single role
allocation), and its content is determined by the capability-handle variant:
read-write on every table handle for the keyed variant; for the relational
variant one policy statement carrying the five `rds-data`
statement-execution actions on the cluster, plus read access to the
credential secret. -/
theorem sharedGrant_byVariant (config : DatabaseConfig) (pn env : String)
    (lc : LambdaConfig) (firstId : Nat) (hvalid : validDatabaseConfig config) :
    (∀ p ∈ (apiConstruct lc pn env (databaseConstruct config pn env) firstId).lambdaFunctions,
        p.2.roleRef = (apiConstruct lc pn env (databaseConstruct config pn env) firstId).roleId)
  ∧ (config.type = DbType.dynamodb →
      (createLambdaExecutionRole (databaseConstruct config pn env)).tableGrants
          = ((databaseConstruct config pn env).dynamoTables.getD []).map (fun p => p.2.tableName)
      ∧ (createLambdaExecutionRole (databaseConstruct config pn env)).policyStatements = []
      ∧ (createLambdaExecutionRole (databaseConstruct config pn env)).secretReadGrants = [])
  ∧ (config.type = DbType.auroraServerless →
      ∃ cluster secret,
        (databaseConstruct config pn env).auroraCluster = some cluster
      ∧ (databaseConstruct config pn env).auroraSecret = some secret
      ∧ (createLambdaExecutionRole (databaseConstruct config pn env)).tableGrants = []
      ∧ (createLambdaExecutionRole (databaseConstruct config pn env)).policyStatements
          = [{ actions := rdsDataActions, resources := [cluster.clusterArn] }]
      ∧ (createLambdaExecutionRole (databaseConstruct config pn env)).secretReadGrants
          = [secret.secretArn]
      ∧ rdsDataActions.length = 5) := by
  refine ⟨fun p hp => (apiConstruct_fn_refs lc pn env _ firstId p hp).1, ?_, ?_⟩
  · intro htype
    obtain ⟨ts, hts⟩ := Option.isSome_iff_exists.mp (hvalid.1 htype)
    simp [databaseConstruct, setupDynamoDB, createLambdaExecutionRole, htype, hts]
  · intro htype
    obtain ⟨ac, hac⟩ := Option.isSome_iff_exists.mp (hvalid.2 htype)
    have hdyn : (databaseConstruct config pn env).dynamoTables = none := by
      simp [databaseConstruct, setupAuroraServerless, htype, hac]
    obtain ⟨cluster, hcluster⟩ :
        ∃ c, (databaseConstruct config pn env).auroraCluster = some c := by
      simp [databaseConstruct, setupAuroraServerless, htype, hac]
    obtain ⟨secret, hsecret⟩ :
        ∃ s, (databaseConstruct config pn env).auroraSecret = some s := by
      simp [databaseConstruct, setupAuroraServerless, htype, hac]
    exact ⟨cluster, secret, hcluster, hsecret,
      by simp [createLambdaExecutionRole, hdyn, hcluster, hsecret],
      by simp [createLambdaExecutionRole, hdyn, hcluster, hsecret],
      by simp [createLambdaExecutionRole, hdyn, hcluster, hsecret], rfl⟩

/-- Witness for the amended C4 at a concrete Aurora configuration. -/
theorem sharedGrant_byVariant_witness :
    ∃ cluster secret,
      (databaseConstruct auroraDbConfig "demo" "dev").auroraCluster = some cluster
    ∧ (databaseConstruct auroraDbConfig "demo" "dev").auroraSecret = some secret
    ∧ (createLambdaExecutionRole (databaseConstruct auroraDbConfig "demo" "dev")).tableGrants = []
    ∧ (createLambdaExecutionRole (databaseConstruct auroraDbConfig "demo" "dev")).policyStatements
        = [{ actions := rdsDataActions
             resources := [cluster.clusterArn] }]
    ∧ (createLambdaExecutionRole (databaseConstruct auroraDbConfig "demo" "dev")).secretReadGrants
        = [secret.secretArn]
    ∧ rdsDataActions.length = 5 :=
  (sharedGrant_byVariant auroraDbConfig "demo" "dev" defaultLambdaConfig 0 (by decide)).2.2 rfl

/-- A `DynamoTable<name>` output key never collides with `WebsiteUrl`. -/
theorem dynKey_ne_websiteUrl (n : String) : "DynamoTable" ++ n ≠ "WebsiteUrl" := by
  intro h
  have h1 : ("DynamoTable" ++ n).data = "WebsiteUrl".data := congrArg String.data h
  have h2 : ("DynamoTable" ++ n).data = "DynamoTable".data ++ n.data := rfl
  rw [h2] at h1
  simp at h1

/-- A `DynamoTable<name>` output key never collides with `CloudFrontUrl`. -/
theorem dynKey_ne_cloudFrontUrl (n : String) : "DynamoTable" ++ n ≠ "CloudFrontUrl" := by
  intro h
  have h1 : ("DynamoTable" ++ n).data = "CloudFrontUrl".data := congrArg String.data h
  have h2 : ("DynamoTable" ++ n).data = "DynamoTable".data ++ n.data := rfl
  rw [h2] at h1
  simp at h1

/-- The `WebsiteUrl` output is present exactly when website hosting is
enabled. -/
theorem mem_outputKeys_site (config : AppConfig) (api : ApiConstruct)
    (s3c : S3Construct) (database : DatabaseConstruct) :
    "WebsiteUrl" ∈ outputKeys (stackOutputs config api s3c database)
      ↔ config.s3.enableWebsiteHosting = true := by
  unfold outputKeys stackOutputs
  constructor
  · intro hmem
    by_contra hh
    have hh' : config.s3.enableWebsiteHosting = false := by
      cases hb : config.s3.enableWebsiteHosting
      · rfl
      · exact absurd hb hh
    cases hd : s3c.distributionDomainName <;>
      cases hdt : config.database.type <;>
        cases ht : database.dynamoTables <;>
          cases hc : database.auroraCluster <;>
            simp [hh', hd, hdt, ht, hc, List.mem_append, List.mem_map] at hmem <;>
            · obtain ⟨nm, _, he⟩ := hmem
              exact dynKey_ne_websiteUrl nm he
  · intro hh
    simp [hh, List.mem_append]

/-- The `CloudFrontUrl` output is present exactly when the distribution
domain name is set. -/
theorem mem_outputKeys_cdn (config : AppConfig) (api : ApiConstruct)
    (s3c : S3Construct) (database : DatabaseConstruct) :
    "CloudFrontUrl" ∈ outputKeys (stackOutputs config api s3c database)
      ↔ s3c.distributionDomainName.isSome = true := by
  unfold outputKeys stackOutputs
  constructor
  · intro hmem
    by_contra hh
    have hd : s3c.distributionDomainName = none := by
      cases hdc : s3c.distributionDomainName
      · rfl
      · exact absurd (by simp [hdc]) hh
    cases hhh : config.s3.enableWebsiteHosting <;>
      cases hdt : config.database.type <;>
        cases ht : database.dynamoTables <;>
          cases hc : database.auroraCluster <;>
            simp [hhh, hd, hdt, ht, hc, List.mem_append, List.mem_map] at hmem <;>
            · obtain ⟨nm, _, he⟩ := hmem
              exact dynKey_ne_cloudFrontUrl nm he
  · intro hh
    obtain ⟨d, hd⟩ := Option.isSome_iff_exists.mp hh
    cases hhh : config.s3.enableWebsiteHosting <;> simp [hhh, hd, List.mem_append]

/-- Value of the `WebsiteUrl` output when website hosting is enabled. -/
theorem stackOutputs_lookup_site (config : AppConfig) (api : ApiConstruct)
    (s3c : S3Construct) (database : DatabaseConstruct)
    (hh : config.s3.enableWebsiteHosting = true) :
    (stackOutputs config api s3c database).lookup "WebsiteUrl"
      = some (s3c.websiteUrl.getD "Not configured") := by
  unfold stackOutputs
  simp [hh, List.lookup]

/-- Value of the `CloudFrontUrl` output when the distribution domain name is
set. -/
theorem stackOutputs_lookup_cdn (config : AppConfig) (api : ApiConstruct)
    (s3c : S3Construct) (database : DatabaseConstruct) (d : String)
    (hd : s3c.distributionDomainName = some d) :
    (stackOutputs config api s3c database).lookup "CloudFrontUrl"
      = some ("https://" ++ d) := by
  unfold stackOutputs
  cases hh : config.s3.enableWebsiteHosting <;> simp [hh, hd, List.lookup]

/-- With CloudFront enabled the construct's `websiteUrl` is the distribution
address. -/
theorem s3Construct_websiteUrl_cf (config : S3Config) (pn env r : String)
    (hcf : config.enableCloudFront = true) :
    (s3Construct config pn env r).websiteUrl
      = some ("https://" ++ distDomainName pn env) := by
  simp [s3Construct, createCloudFrontDistribution, hcf]

/-- Claim C5, counterexample: with the distribution enabled but hosting
disabled, the distribution output appears while the site output does not —
the claim's "with distribution enabled, both appear" fails. -/
theorem siteOutput_missing_with_distributionOnly :
    "CloudFrontUrl" ∈
        outputKeys (serverlessWebAppStack (sampleAppConfig s3CloudFrontOnly) "abc").outputs
  ∧ "WebsiteUrl" ∉
        outputKeys (serverlessWebAppStack (sampleAppConfig s3CloudFrontOnly) "abc").outputs := by
  decide

/-- Claim C5, amended: with distribution and hosting both disabled neither
output appears; with hosting alone exactly the site output appears; with
distribution enabled the site output appears only when hosting is also
enabled, in which case both outputs resolve to the same distribution
address; with distribution alone only the distribution output appears. -/
theorem outputs_by_flags (config : AppConfig) (r : String) :
    (config.s3.enableCloudFront = false → config.s3.enableWebsiteHosting = false →
        "WebsiteUrl" ∉ outputKeys (serverlessWebAppStack config r).outputs
      ∧ "CloudFrontUrl" ∉ outputKeys (serverlessWebAppStack config r).outputs)
  ∧ (config.s3.enableCloudFront = false → config.s3.enableWebsiteHosting = true →
        "WebsiteUrl" ∈ outputKeys (serverlessWebAppStack config r).outputs
      ∧ "CloudFrontUrl" ∉ outputKeys (serverlessWebAppStack config r).outputs)
  ∧ (config.s3.enableCloudFront = true → config.s3.enableWebsiteHosting = true →
        "WebsiteUrl" ∈ outputKeys (serverlessWebAppStack config r).outputs
      ∧ "CloudFrontUrl" ∈ outputKeys (serverlessWebAppStack config r).outputs
      ∧ (serverlessWebAppStack config r).outputs.lookup "WebsiteUrl"
          = some ("https://" ++ distDomainName config.projectName config.environment)
      ∧ (serverlessWebAppStack config r).outputs.lookup "CloudFrontUrl"
          = some ("https://" ++ distDomainName config.projectName config.environment))
  ∧ (config.s3.enableCloudFront = true → config.s3.enableWebsiteHosting = false →
        "WebsiteUrl" ∉ outputKeys (serverlessWebAppStack config r).outputs
      ∧ "CloudFrontUrl" ∈ outputKeys (serverlessWebAppStack config r).outputs) := by
  have houts : (serverlessWebAppStack config r).outputs
      = stackOutputs config
          (apiConstruct config.lambdaCfg config.projectName config.environment
            (databaseConstruct config.database config.projectName config.environment) 0)
          (s3Construct config.s3 config.projectName config.environment r)
          (databaseConstruct config.database config.projectName config.environment) := rfl
  have hsite := mem_outputKeys_site config
      (apiConstruct config.lambdaCfg config.projectName config.environment
        (databaseConstruct config.database config.projectName config.environment) 0)
      (s3Construct config.s3 config.projectName config.environment r)
      (databaseConstruct config.database config.projectName config.environment)
  have hcdn := mem_outputKeys_cdn config
      (apiConstruct config.lambdaCfg config.projectName config.environment
        (databaseConstruct config.database config.projectName config.environment) 0)
      (s3Construct config.s3 config.projectName config.environment r)
      (databaseConstruct config.database config.projectName config.environment)
  have hddn := s3Construct_ddn config.s3 config.projectName config.environment r
  refine ⟨?_, ?_, ?_, ?_⟩
  · intro hcf hh
    rw [houts]
    constructor
    · intro hmem
      have hb := hsite.mp hmem
      rw [hh] at hb
      cases hb
    · intro hmem
      have hb := hcdn.mp hmem
      rw [hddn, hcf] at hb
      simp at hb
  · intro hcf hh
    rw [houts]
    refine ⟨hsite.mpr hh, ?_⟩
    intro hmem
    have hb := hcdn.mp hmem
    rw [hddn, hcf] at hb
    simp at hb
  · intro hcf hh
    rw [houts]
    have hdsome :
        (s3Construct config.s3 config.projectName config.environment r).distributionDomainName
          = some (distDomainName config.projectName config.environment) := by
      rw [hddn, hcf]
      simp
    refine ⟨hsite.mpr hh, hcdn.mpr (by rw [hdsome]; rfl), ?_, ?_⟩
    · rw [stackOutputs_lookup_site _ _ _ _ hh,
        s3Construct_websiteUrl_cf config.s3 config.projectName config.environment r hcf]
      rfl
    · exact stackOutputs_lookup_cdn _ _ _ _ _ hdsome
  · intro hcf hh
    rw [houts]
    have hdsome :
        (s3Construct config.s3 config.projectName config.environment r).distributionDomainName
          = some (distDomainName config.projectName config.environment) := by
      rw [hddn, hcf]
      simp
    refine ⟨?_, hcdn.mpr (by rw [hdsome]; rfl)⟩
    intro hmem
    have hb := hsite.mp hmem
    rw [hh] at hb
    cases hb

/-- Witness for the amended C5 with both flags enabled: both outputs appear
and carry the same distribution address. -/
theorem outputs_by_flags_witness :
    "WebsiteUrl" ∈
        outputKeys (serverlessWebAppStack (sampleAppConfig s3HostingAndCloudFront) "abc").outputs
  ∧ "CloudFrontUrl" ∈
        outputKeys (serverlessWebAppStack (sampleAppConfig s3HostingAndCloudFront) "abc").outputs
  ∧ (serverlessWebAppStack (sampleAppConfig s3HostingAndCloudFront) "abc").outputs.lookup "WebsiteUrl"
      = some ("https://" ++ distDomainName "demo" "dev")
  ∧ (serverlessWebAppStack (sampleAppConfig s3HostingAndCloudFront) "abc").outputs.lookup "CloudFrontUrl"
      = some ("https://" ++ distDomainName "demo" "dev") :=
  (outputs_by_flags (sampleAppConfig s3HostingAndCloudFront) "abc").2.2.1 rfl rfl

/-- Witness for C2 at the repository's default DynamoDB configuration. -/
theorem capabilityHandle_exclusive_witness :
    ((databaseConstruct dynamoDbConfig "demo" "dev").dynamoTables.isSome = true
      ∨ ((databaseConstruct dynamoDbConfig "demo" "dev").auroraCluster.isSome = true
          ∧ (databaseConstruct dynamoDbConfig "demo" "dev").auroraSecret.isSome = true))
  ∧ ¬((databaseConstruct dynamoDbConfig "demo" "dev").dynamoTables.isSome = true
      ∧ (databaseConstruct dynamoDbConfig "demo" "dev").auroraCluster.isSome = true) :=
  capabilityHandle_exclusive dynamoDbConfig "demo" "dev" (by decide)

/-- Claim C6: with distribution enabled the bucket is fully private (no
public read, all public access blocked) regardless of the hosting flag; with
hosting enabled and distribution disabled it grants direct public read;
otherwise it has no public read grant. -/
theorem storage_access_by_flags (config : S3Config) (pn env r : String) :
    (config.enableCloudFront = true →
        (s3Construct config pn env r).bucket.publicReadAccess = false
      ∧ (s3Construct config pn env r).bucket.blockPublicAccess = BlockPublicAccess.blockAll)
  ∧ (config.enableCloudFront = false → config.enableWebsiteHosting = true →
        (s3Construct config pn env r).bucket.publicReadAccess = true)
  ∧ (config.enableCloudFront = false → config.enableWebsiteHosting = false →
        (s3Construct config pn env r).bucket.publicReadAccess = false) := by
  have hb : (s3Construct config pn env r).bucket = mkStaticAssetsBucket config pn env r := by
    cases hc : config.enableCloudFront <;> simp [s3Construct, hc]
  refine ⟨fun hcf => ?_, fun hcf hh => ?_, fun hcf hh => ?_⟩ <;> rw [hb]
  · simp [mkStaticAssetsBucket, hcf]
  · simp [mkStaticAssetsBucket, hcf, hh]
  · simp [mkStaticAssetsBucket, hcf, hh]

/-- Witness for C6 with distribution enabled and hosting also enabled: the
bucket is still fully private. -/
theorem storage_access_by_flags_witness :
    (s3Construct s3HostingAndCloudFront "demo" "dev" "abc").bucket.publicReadAccess = false
  ∧ (s3Construct s3HostingAndCloudFront "demo" "dev" "abc").bucket.blockPublicAccess
      = BlockPublicAccess.blockAll :=
  (storage_access_by_flags s3HostingAndCloudFront "demo" "dev" "abc").1 rfl

/-- Claim C7: for every route list whose descriptor names are pairwise
distinct, the binder produces one compute unit per route descriptor and the
unit-name map is injective (its key list has no duplicates). -/
theorem computeUnits_one_per_route (cfgs : List RouteConfig) (lc : LambdaConfig)
    (pn env : String) (roleId envId : Nat)
    (h : (cfgs.map RouteConfig.name).Nodup) :
    (buildLambdaFunctions cfgs lc pn env roleId envId).length = cfgs.length
  ∧ ((buildLambdaFunctions cfgs lc pn env roleId envId).map Prod.fst).Nodup := by
  rw [buildLambdaFunctions_eq cfgs lc pn env roleId envId h]
  refine ⟨by simp, ?_⟩
  have hkeys : (cfgs.map (fun c => (c.name, mkLambdaFunction c lc pn env roleId envId))).map
      Prod.fst = cfgs.map RouteConfig.name := by
    simp
  rw [hkeys]
  exact h

/-- Witness for C7 at the source's fixed eight-route catalog. -/
theorem computeUnits_one_per_route_witness :
    (buildLambdaFunctions functionConfigs defaultLambdaConfig "demo" "dev" 0 1).length
        = functionConfigs.length
  ∧ ((buildLambdaFunctions functionConfigs defaultLambdaConfig "demo" "dev" 0 1).map
        Prod.fst).Nodup :=
  computeUnits_one_per_route functionConfigs defaultLambdaConfig "demo" "dev" 0 1 (by decide)

/-- Claim C8: all compute units of one composition run carry the same
environment-object allocation and the same role allocation — the run's
single `commonEnvironment` object and single execution role, passed by
reference. -/
theorem sharedEnv_sharedGrant_refs (lc : LambdaConfig) (pn env : String)
    (db : DatabaseConstruct) (firstId : Nat) :
    ∀ p ∈ (apiConstruct lc pn env db firstId).lambdaFunctions,
      ∀ q ∈ (apiConstruct lc pn env db firstId).lambdaFunctions,
        p.2.envRef = q.2.envRef
      ∧ p.2.roleRef = q.2.roleRef
      ∧ p.2.envRef = (apiConstruct lc pn env db firstId).envId
      ∧ p.2.roleRef = (apiConstruct lc pn env db firstId).roleId := by
  intro p hp q hq
  have h1 := apiConstruct_fn_refs lc pn env db firstId p hp
  have h2 := apiConstruct_fn_refs lc pn env db firstId q hq
  exact ⟨h1.2.trans h2.2.symm, h1.1.trans h2.1.symm, h1.2, h1.1⟩

/-- Witness for C8 on two concrete compute units of one run. -/
theorem sharedEnv_sharedGrant_refs_witness :
    demoUnitA.2.envRef = demoUnitB.2.envRef
  ∧ demoUnitA.2.roleRef = demoUnitB.2.roleRef
  ∧ demoUnitA.2.envRef = (apiConstruct defaultLambdaConfig "demo" "dev" demoDatabase 0).envId
  ∧ demoUnitA.2.roleRef = (apiConstruct defaultLambdaConfig "demo" "dev" demoDatabase 0).roleId :=
  sharedEnv_sharedGrant_refs defaultLambdaConfig "demo" "dev" demoDatabase 0
    demoUnitA
    (by
      rw [show (apiConstruct defaultLambdaConfig "demo" "dev" demoDatabase 0).lambdaFunctions
            = buildLambdaFunctions functionConfigs defaultLambdaConfig "demo" "dev" 0 1 from rfl,
        buildLambdaFunctions_eq functionConfigs defaultLambdaConfig "demo" "dev" 0 1 (by decide)]
      exact List.mem_map.mpr ⟨⟨"GetItems", "GET", "/items"⟩, by decide, rfl⟩)
    demoUnitB
    (by
      rw [show (apiConstruct defaultLambdaConfig "demo" "dev" demoDatabase 0).lambdaFunctions
            = buildLambdaFunctions functionConfigs defaultLambdaConfig "demo" "dev" 0 1 from rfl,
        buildLambdaFunctions_eq functionConfigs defaultLambdaConfig "demo" "dev" 0 1 (by decide)]
      exact List.mem_map.mpr ⟨⟨"GetUser", "GET", "/users/{id}"⟩, by decide, rfl⟩)

/-- Claim C9, counterexample: at the unknown environment tag `"qa"` every
component that branches on the tag silently applies the non-production
defaults (destroy-on-teardown, no point-in-time recovery, no versioning,
auto-pause, low capacity ceiling, no deletion protection) instead of
treating the unknown value as an error. -/
theorem unknownEnv_silent_defaults :
    ((databaseConstruct dynamoDbConfig "demo" "qa").dynamoTables.map
        (fun ts => ts.map (fun p => (p.2.removalPolicy, p.2.pointInTimeRecovery))))
      = some [(RemovalPolicy.destroy, false), (RemovalPolicy.destroy, false)]
  ∧ (s3Construct s3HostingOnly "demo" "qa" "abc").bucket.removalPolicy = RemovalPolicy.destroy
  ∧ (s3Construct s3HostingOnly "demo" "qa" "abc").bucket.versioned = false
  ∧ ((databaseConstruct auroraDbConfig "demo" "qa").auroraCluster.map
        (fun c => (c.autoPauseMinutes, c.maxCapacity, c.deletionProtection)))
      = some (10, 16, false) := by
  decide

/-- Claim C9, amended: every component that branches on the environment tag
compares it with `"prod"` only, and silently applies the non-production
defaults to every other value — unknown tags included — without error. -/
theorem envBranch_nonprod_default (environment : String) (h : environment ≠ "prod")
    (pn r : String) (config : S3Config) (tc : DynamoTableConfig) (ac : AuroraConfig) :
    (mkDynamoTable pn environment tc).removalPolicy = RemovalPolicy.destroy
  ∧ (mkDynamoTable pn environment tc).pointInTimeRecovery = false
  ∧ (s3Construct config pn environment r).bucket.removalPolicy = RemovalPolicy.destroy
  ∧ (s3Construct config pn environment r).bucket.versioned = false
  ∧ ((setupAuroraServerless ⟨DbType.auroraServerless, none, some ac⟩ pn environment).auroraCluster.map
        (fun c => (c.autoPauseMinutes, c.maxCapacity, c.deletionProtection)))
      = some (10, 16, false) := by
  have hbucket : (s3Construct config pn environment r).bucket
      = mkStaticAssetsBucket config pn environment r := by
    cases hc : config.enableCloudFront <;> simp [s3Construct, hc]
  refine ⟨by simp [mkDynamoTable, h], by simp [mkDynamoTable, h], ?_, ?_,
    by simp [setupAuroraServerless, h]⟩ <;>
    rw [hbucket] <;> simp [mkStaticAssetsBucket, h]

/-- Witness for the amended C9 at the unknown tag `"qa"`. -/
theorem envBranch_nonprod_default_witness :
    (mkDynamoTable "demo" "qa" usersTableConfig).removalPolicy = RemovalPolicy.destroy
  ∧ (mkDynamoTable "demo" "qa" usersTableConfig).pointInTimeRecovery = false
  ∧ (s3Construct s3HostingOnly "demo" "qa" "abc").bucket.removalPolicy = RemovalPolicy.destroy
  ∧ (s3Construct s3HostingOnly "demo" "qa" "abc").bucket.versioned = false
  ∧ ((setupAuroraServerless ⟨DbType.auroraServerless, none,
          some ⟨"appdb", "admin", DbEngine.postgres, none⟩⟩ "demo" "qa").auroraCluster.map
        (fun c => (c.autoPauseMinutes, c.maxCapacity, c.deletionProtection)))
      = some (10, 16, false) :=
  envBranch_nonprod_default "qa" (by decide) "demo" "abc" s3HostingOnly usersTableConfig
    ⟨"appdb", "admin", DbEngine.postgres, none⟩

/-- Claim C10: the `DATABASE_TYPE` tag in the shared environment mapping is
derived from the presence of the keyed-table handle: whenever the handle's
table set is absent, the mapping tags the tier as `aurora-serverless`. -/
theorem databaseTypeTag_from_handle (db : DatabaseConstruct) (pn env : String)
    (h : db.dynamoTables = none) :
    (commonEnvironment db pn env).lookup "DATABASE_TYPE" = some "aurora-serverless" := by
  unfold commonEnvironment
  rw [h]
  cases hc : db.auroraCluster <;> cases hs : db.auroraSecret <;>
    simp [objInsert, List.lookup, h]

/-- Witness for C10 on the handle of a configuration that declared the
keyed-table tier but omitted its table list: the tag is still
`aurora-serverless`. -/
theorem databaseTypeTag_from_handle_witness :
    (databaseConstruct missingTablesConfig "demo" "dev").dynamoTables = none
  ∧ (commonEnvironment (databaseConstruct missingTablesConfig "demo" "dev") "demo" "dev").lookup
        "DATABASE_TYPE" = some "aurora-serverless" :=
  ⟨rfl, databaseTypeTag_from_handle (databaseConstruct missingTablesConfig "demo" "dev")
    "demo" "dev" rfl⟩

end CdkApp
